import Mathlib

/-!
Verification of the core of `c_art_2_volume_changes` (src/src/lib.rs).

Modelling conventions (shallow embedding):
* An `f64` value is modelled exactly as `F := Option ℚ`: `none` is IEEE NaN,
  `some q` is the finite value `q`.  Arithmetic is exact (rational), so
  rounding and overflow to infinity do not occur in the model; IEEE
  infinities are conflated with NaN in `F.div` (a division `x / 0` with
  `x ≠ 0` never occurs on any path the program reaches: whenever a divisor
  is `0` in the program the dividend is an empty sum, i.e. `0`).
* A Rust `Option<f64>` is `Option F`; `Vec<Option<f64>>` is `List (Option F)`.
* `f64::sqrt` is `Real.sqrt` on the rational payload, with negative
  arguments (and NaN) mapped to NaN, so `std_dev` lives in `Option ℝ`.
* Fallible Rust functions returning `Result<_, Box<dyn Error>>` become
  `Except String _`; the error strings reproduce the source's `format!`.
-/

/-- Model of `f64`: `none` is NaN, `some q` a finite value. -/
abbrev F := Option ℚ

/-- IEEE NaN. -/
def F.nan : F := none

/-- `f64::is_nan`. -/
def F.isNan (x : F) : Bool := x.isNone

/-- `f64` subtraction: NaN-propagating, otherwise exact. -/
def F.sub : F → F → F
  | some a, some b => some (a - b)
  | _, _ => none

/-- `f64` addition: NaN-propagating, otherwise exact. -/
def F.add : F → F → F
  | some a, some b => some (a + b)
  | _, _ => none

/-- `f64` division: NaN-propagating; division by zero yields NaN
(the program only ever divides by zero with a zero dividend, where IEEE
also yields NaN, so the conflation of infinities with NaN is inert). -/
def F.div : F → F → F
  | some a, some b => if b = 0 then none else some (a / b)
  | _, _ => none

/-- `f64::powf(x, 2.0)`: NaN-propagating squaring. -/
def F.pow2 : F → F
  | some a => some (a ^ 2)
  | none => none

/-- `f64::sqrt`: NaN for NaN or negative input, else the real square root. -/
noncomputable def F.sqrt : F → Option ℝ
  | some a => if a < 0 then none else some (Real.sqrt (a : ℝ))
  | none => none

/-- `Iterator::sum::<f64>()` over a vector of `f64`: left fold of `+`
starting from `0.0`. -/
def sumF (l : List F) : F := l.foldl F.add (some 0)

/-- The element-wise differences retained by the `filter_map` stage of
`avg_std_dev_from_vectors`: positions where both options are `Some`,
mapped to `o1.unwrap() - o2.unwrap()`. -/
def diffsSome (v1 v2 : List (Option F)) : List F :=
  (v1.zip v2).filterMap fun p =>
    if p.1.isSome && p.2.isSome then some (F.sub (p.1.getD F.nan) (p.2.getD F.nan))
    else none

/-- The error message of the length check in `avg_std_dev_from_vectors`
(`format!("Expected the same number of entries in v1 [{}] and v2 [{}].", n, m)`). -/
def lengthMismatchMsg (n m : ℕ) : String :=
  "Expected the same number of entries in v1 [" ++ toString n ++
    "] and v2 [" ++ toString m ++ "]."

/-- `avg_std_dev_from_vectors` from src/src/lib.rs: checks the lengths,
retains the pairwise differences where both entries are present and the
difference is not NaN, and returns `(average, standard deviation, count)`.
The debug logging of the source has no observable effect and is omitted. -/
noncomputable def avg_std_dev_from_vectors (v1 v2 : List (Option F)) :
    Except String (F × Option ℝ × ℕ) :=
  let n := v1.length
  let m := v2.length
  if n ≠ m then Except.error (lengthMismatchMsg n m)
  else
    let v := (diffsSome v1 v2).filter fun x => !(F.isNan x)
    let nf : ℚ := (v.length : ℚ)
    let avg := F.div (sumF v) (some nf)
    let std_dev := F.sqrt (F.div (sumF (v.map fun d => F.pow2 (F.sub d avg))) (some (nf - 1)))
    Except.ok (avg, std_dev, v.length)

/-- `Data` from src/src/lib.rs: per-ROI volumes for phases 1, 2 and 3. -/
structure Data where
  roi_name : String
  vol_phase_1 : List (Option F)
  vol_phase_2 : List (Option F)
  vol_phase_3 : List (Option F)

/-- `Data::new`. -/
def Data.new (name : String) : Data := ⟨name, [], [], []⟩

/-- `Data::add_vol`: each argument is `unwrap_or(f64::NAN)`-ed; if any of
the three is NaN the state is unchanged, otherwise all three values are
pushed (wrapped in `Some`). -/
def Data.add_vol (d : Data) (v1 v2 v3 : Option F) : Data :=
  let w1 := v1.getD F.nan
  let w2 := v2.getD F.nan
  let w3 := v3.getD F.nan
  if F.isNan w1 || F.isNan w2 || F.isNan w3 then d
  else
    { d with
      vol_phase_1 := d.vol_phase_1 ++ [some w1]
      vol_phase_2 := d.vol_phase_2 ++ [some w2]
      vol_phase_3 := d.vol_phase_3 ++ [some w3] }

/-- `Data::clear`. -/
def Data.clear (d : Data) : Data :=
  { d with vol_phase_1 := [], vol_phase_2 := [], vol_phase_3 := [] }

/-- `Stat` from src/src/lib.rs. -/
structure Stat where
  roi_name : String
  avg_vol_phase_start : F
  phase_start : ℤ
  phase_end : ℤ
  avg : F
  std_dev : Option ℝ
  n : ℕ

/-- `Data::phase_1_to_2_stat`. -/
noncomputable def Data.phase_1_to_2_stat (d : Data) : Except String Stat :=
  let avg_vol := F.div (sumF (d.vol_phase_1.map fun x => x.getD F.nan))
    (some (d.vol_phase_1.length : ℚ))
  match avg_std_dev_from_vectors d.vol_phase_1 d.vol_phase_2 with
  | Except.error e => Except.error e
  | Except.ok (avg, std_dev, n) =>
    Except.ok ⟨d.roi_name, avg_vol, 1, 2, avg, std_dev, n⟩

/-- `Data::phase_2_to_3_stat`.  Note the source divides the sum of
`vol_phase_2` by `vol_phase_1.len()`. -/
noncomputable def Data.phase_2_to_3_stat (d : Data) : Except String Stat :=
  let avg_vol := F.div (sumF (d.vol_phase_2.map fun x => x.getD F.nan))
    (some (d.vol_phase_1.length : ℚ))
  match avg_std_dev_from_vectors d.vol_phase_2 d.vol_phase_3 with
  | Except.error e => Except.error e
  | Except.ok (avg, std_dev, n) =>
    Except.ok ⟨d.roi_name, avg_vol, 2, 3, avg, std_dev, n⟩

/-- `Record` from src/src/lib.rs: one CSV row (patient id plus three
optional phase volumes for each of the three ROIs). -/
structure Record where
  patient_id : String
  gtv_phase_i : Option F
  gtv_phase_ii : Option F
  gtv_phase_iii : Option F
  gtv_n_phase_i : Option F
  gtv_n_phase_ii : Option F
  gtv_n_phase_iii : Option F
  ptv_dp_phase_i : Option F
  ptv_dp_phase_ii : Option F
  ptv_dp_phase_iii : Option F

/-- The loop body of `records_to_data`: feed one record to the three
accumulators. -/
def stepRecord (acc : Data × Data × Data) (r : Record) : Data × Data × Data :=
  (acc.1.add_vol r.gtv_phase_i r.gtv_phase_ii r.gtv_phase_iii,
   acc.2.1.add_vol r.gtv_n_phase_i r.gtv_n_phase_ii r.gtv_n_phase_iii,
   acc.2.2.add_vol r.ptv_dp_phase_i r.ptv_dp_phase_ii r.ptv_dp_phase_iii)

/-- `records_to_data` from src/src/lib.rs: build the GTV, GTV_N and PTV_DP
accumulators by a single pass over the records. -/
def records_to_data (records : List Record) : List Data :=
  let acc := records.foldl stepRecord (Data.new "GTV", Data.new "GTV_N", Data.new "PTV_DP")
  [acc.1, acc.2.1, acc.2.2]

/-- Rust's lexicographic `String` ordering (byte-wise; identical to
char-wise comparison for the ASCII ROI names used here). -/
def cmpChars : List Char → List Char → Ordering
  | [], [] => Ordering.eq
  | [], _ :: _ => Ordering.lt
  | _ :: _, [] => Ordering.gt
  | a :: s, b :: t =>
    if a < b then Ordering.lt else if b < a then Ordering.gt else cmpChars s t

/-- `impl Ord for Stat`: compare by ROI name, then phase_start, then
phase_end; the numeric fields take no part. -/
def statCmp (a b : Stat) : Ordering :=
  let o := cmpChars a.roi_name.data b.roi_name.data
  if o ≠ Ordering.eq then o
  else
    let o := compare a.phase_start b.phase_start
    if o ≠ Ordering.eq then o
    else compare a.phase_end b.phase_end

/-- `impl PartialEq for Stat`: equality on the identity triple only. -/
def statBEq (a b : Stat) : Bool :=
  a.roi_name == b.roi_name && a.phase_start == b.phase_start &&
    a.phase_end == b.phase_end

/-- The `a ≤ b` of the `Ord` instance, as used by `Vec::sort`. -/
def statLE (a b : Stat) : Bool := statCmp a b ≠ Ordering.gt

/-- Insert into a sorted list, keeping earlier-inserted equals first. -/
def insertStat (a : Stat) : List Stat → List Stat
  | [] => [a]
  | b :: t => if statLE a b then a :: b :: t else b :: insertStat a t

/-- `Vec::sort` on `Vec<Stat>`: a stable sort by `Ord` (modelled by
insertion sort, which is stable). -/
def sortStats : List Stat → List Stat
  | [] => []
  | a :: t => insertStat a (sortStats t)

/-- `add_data` from src/src/lib.rs: push the 1→2 and the 2→3 stat of one
accumulator, propagating errors. -/
noncomputable def add_data (stats : List Stat) (d : Data) : Except String (List Stat) :=
  match d.phase_1_to_2_stat with
  | Except.error e => Except.error e
  | Except.ok s1 =>
    match d.phase_2_to_3_stat with
    | Except.error e => Except.error e
    | Except.ok s2 => Except.ok (stats ++ [s1, s2])

/-- The loop of `dataset_to_stats`, accumulating into `stats` with `?`-style
early return. -/
noncomputable def datasetLoop (stats : List Stat) : List Data → Except String (List Stat)
  | [] => Except.ok stats
  | d :: rest =>
    match add_data stats d with
    | Except.error e => Except.error e
    | Except.ok stats2 => datasetLoop stats2 rest

/-- `dataset_to_stats` from src/src/lib.rs: collect the two stats of every
accumulator, then sort. -/
noncomputable def dataset_to_stats (dataset : List Data) : Except String (List Stat) :=
  match datasetLoop [] dataset with
  | Except.error e => Except.error e
  | Except.ok v => Except.ok (sortStats v)

/-! ### Spec-side definitions

These follow the wording of the specification, to be compared with the
definitions above, which follow the source. -/

/-- Spec wording: the differences at the positions where both elements are
present and the difference `v1[i] - v2[i]` is not NaN (as exact rationals —
a non-NaN difference always has a rational payload in the model). -/
def specDiffs (v1 v2 : List (Option F)) : List ℚ :=
  (v1.zip v2).filterMap fun p =>
    match p.1, p.2 with
    | some a, some b =>
      match F.sub a b with
      | some d => some d
      | none => none
    | _, _ => none

/-- Spec wording: the arithmetic mean of a stored phase sequence over all
stored entries — its sum divided by the raw stored sequence length
(in `f64` arithmetic, as the spec's mean of optional values). -/
def specAvgVol (l : List (Option F)) : F :=
  F.div (sumF (l.map fun x => x.getD F.nan)) (some (l.length : ℚ))

/-- Spec wording: an argument to `add` that is missing, or present but NaN. -/
def missingOrNan (v : Option F) : Prop := v = none ∨ v = some F.nan

/-- Spec wording: adding the same constant `c` to every element of a
sequence of optional values (NaN stays NaN, missing stays missing). -/
def shiftBy (c : ℚ) (v : List (Option F)) : List (Option F) :=
  v.map fun o => o.map fun x => F.add x (some c)

/-- The `Data` values reachable through the public constructors
`new`, `add_vol` and `clear`. -/
inductive Reachable : Data → Prop
  | new (name : String) : Reachable (Data.new name)
  | add_vol {d : Data} (v1 v2 v3 : Option F) :
      Reachable d → Reachable (d.add_vol v1 v2 v3)
  | clear {d : Data} : Reachable d → Reachable d.clear

/-! ### Helper definitions naming the components of
`avg_std_dev_from_vectors`'s successful result. -/

/-- The list of retained differences (`v` in the source). -/
def retainedF (v1 v2 : List (Option F)) : List F :=
  (diffsSome v1 v2).filter fun x => !(F.isNan x)

/-- The count returned by `avg_std_dev_from_vectors`. -/
def asdN (v1 v2 : List (Option F)) : ℕ := (retainedF v1 v2).length

/-- The average returned by `avg_std_dev_from_vectors`. -/
def asdAvg (v1 v2 : List (Option F)) : F :=
  F.div (sumF (retainedF v1 v2)) (some (asdN v1 v2 : ℚ))

/-- The standard deviation returned by `avg_std_dev_from_vectors`. -/
noncomputable def asdSd (v1 v2 : List (Option F)) : Option ℝ :=
  F.sqrt (F.div
    (sumF ((retainedF v1 v2).map fun d => F.pow2 (F.sub d (asdAvg v1 v2))))
    (some ((asdN v1 v2 : ℚ) - 1)))

/-! ### Basic lemmas -/

theorem avg_std_dev_eq_ok (v1 v2 : List (Option F)) (h : v1.length = v2.length) :
    avg_std_dev_from_vectors v1 v2 = Except.ok (asdAvg v1 v2, asdSd v1 v2, asdN v1 v2) := by
  simp [avg_std_dev_from_vectors, h, asdAvg, asdSd, asdN, retainedF]

theorem avg_std_dev_eq_error (v1 v2 : List (Option F)) (h : v1.length ≠ v2.length) :
    avg_std_dev_from_vectors v1 v2 =
      Except.error (lengthMismatchMsg v1.length v2.length) := by
  simp [avg_std_dev_from_vectors, h]

theorem retainedF_eq_map_specDiffs (v1 v2 : List (Option F)) :
    retainedF v1 v2 = (specDiffs v1 v2).map some := by
  induction v1 generalizing v2 with
  | nil => simp [retainedF, diffsSome, specDiffs]
  | cons a s ih =>
    cases v2 with
    | nil => simp [retainedF, diffsSome, specDiffs]
    | cons b t =>
      have ih' := ih t
      simp only [retainedF, diffsSome, specDiffs, List.zip_cons_cons,
        List.filterMap_cons] at ih' ⊢
      cases a with
      | none => simpa using ih'
      | some x =>
        cases b with
        | none => simpa using ih'
        | some y =>
          cases x with
          | none => simpa [F.sub, F.isNan] using ih'
          | some q =>
            cases y with
            | none => simpa [F.sub, F.isNan] using ih'
            | some r => simpa [F.sub, F.isNan] using ih'

theorem foldl_add_some (l : List ℚ) (q : ℚ) :
    (l.map some).foldl F.add (some q) = some (q + l.sum) := by
  induction l generalizing q with
  | nil => simp
  | cons a t ih => simp [F.add, ih, add_assoc]

theorem sumF_map_some (l : List ℚ) : sumF (l.map some) = some l.sum := by
  simpa using foldl_add_some l 0

/-- The invariant maintained by the `Data` constructors: the three phase
sequences have equal length and every stored entry is a present, non-NaN
value. -/
def GoodData (d : Data) : Prop :=
  d.vol_phase_1.length = d.vol_phase_2.length ∧
  d.vol_phase_2.length = d.vol_phase_3.length ∧
  (∀ x ∈ d.vol_phase_1, ∃ q : ℚ, x = some (some q)) ∧
  (∀ x ∈ d.vol_phase_2, ∃ q : ℚ, x = some (some q)) ∧
  (∀ x ∈ d.vol_phase_3, ∃ q : ℚ, x = some (some q))

theorem goodData_new (name : String) : GoodData (Data.new name) := by
  simp [GoodData, Data.new]

theorem goodData_add_vol {d : Data} (hd : GoodData d) (v1 v2 v3 : Option F) :
    GoodData (d.add_vol v1 v2 v3) := by
  obtain ⟨h12, h23, e1, e2, e3⟩ := hd
  unfold Data.add_vol
  by_cases h : (F.isNan (v1.getD F.nan) || F.isNan (v2.getD F.nan) ||
      F.isNan (v3.getD F.nan)) = true
  · simpa [h] using ⟨h12, h23, e1, e2, e3⟩
  · have h' : (¬v1.getD F.nan = none ∧ ¬v2.getD F.nan = none) ∧
        ¬v3.getD F.nan = none := by
      simpa [not_or, F.isNan] using h
    obtain ⟨⟨n1, n2⟩, n3⟩ := h'
    obtain ⟨q1, hq1⟩ := Option.ne_none_iff_exists'.1 n1
    obtain ⟨q2, hq2⟩ := Option.ne_none_iff_exists'.1 n2
    obtain ⟨q3, hq3⟩ := Option.ne_none_iff_exists'.1 n3
    simp only [h, if_false]
    refine ⟨by simp [h12], by simp [h23], ?_, ?_, ?_⟩
    · intro x hx
      rcases List.mem_append.1 hx with hx | hx
      · exact e1 x hx
      · exact ⟨q1, by simp_all⟩
    · intro x hx
      rcases List.mem_append.1 hx with hx | hx
      · exact e2 x hx
      · exact ⟨q2, by simp_all⟩
    · intro x hx
      rcases List.mem_append.1 hx with hx | hx
      · exact e3 x hx
      · exact ⟨q3, by simp_all⟩

theorem goodData_clear {d : Data} : GoodData d.clear := by
  simp [GoodData, Data.clear]

theorem goodData_of_reachable {d : Data} (h : Reachable d) : GoodData d := by
  induction h with
  | new name => exact goodData_new name
  | add_vol v1 v2 v3 _ ih => exact goodData_add_vol ih v1 v2 v3
  | clear _ _ => exact goodData_clear

theorem phase_1_to_2_stat_eq_ok (d : Data)
    (h : d.vol_phase_1.length = d.vol_phase_2.length) :
    d.phase_1_to_2_stat = Except.ok
      ⟨d.roi_name, specAvgVol d.vol_phase_1, 1, 2,
        asdAvg d.vol_phase_1 d.vol_phase_2, asdSd d.vol_phase_1 d.vol_phase_2,
        asdN d.vol_phase_1 d.vol_phase_2⟩ := by
  rw [Data.phase_1_to_2_stat, avg_std_dev_eq_ok _ _ h]
  simp [specAvgVol]

theorem phase_2_to_3_stat_eq_ok (d : Data)
    (h : d.vol_phase_2.length = d.vol_phase_3.length) :
    d.phase_2_to_3_stat = Except.ok
      ⟨d.roi_name,
        F.div (sumF (d.vol_phase_2.map fun x => x.getD F.nan))
          (some (d.vol_phase_1.length : ℚ)), 2, 3,
        asdAvg d.vol_phase_2 d.vol_phase_3, asdSd d.vol_phase_2 d.vol_phase_3,
        asdN d.vol_phase_2 d.vol_phase_3⟩ := by
  rw [Data.phase_2_to_3_stat, avg_std_dev_eq_ok _ _ h]

theorem specDiffs_length_of_all_present (v1 v2 : List (Option F))
    (h : v1.length = v2.length)
    (e1 : ∀ x ∈ v1, ∃ q : ℚ, x = some (some q))
    (e2 : ∀ x ∈ v2, ∃ q : ℚ, x = some (some q)) :
    (specDiffs v1 v2).length = v1.length := by
  induction v1 generalizing v2 with
  | nil => simp [specDiffs]
  | cons a s ih =>
    cases v2 with
    | nil => simp at h
    | cons b t =>
      obtain ⟨q, hq⟩ := e1 a (by simp)
      obtain ⟨r, hr⟩ := e2 b (by simp)
      subst hq hr
      have := ih t (by simpa using h)
        (fun x hx => e1 x (List.mem_cons_of_mem _ hx))
        (fun x hx => e2 x (List.mem_cons_of_mem _ hx))
      simp [specDiffs, List.filterMap_cons, F.sub] at this ⊢
      omega

/-! ### Claims -/

/-- C2: every `Data` value reachable from `Data::new` via `add_vol` and
`clear` has its three phase sequences of equal length. -/
theorem C2_phase_lengths_equal (d : Data) (h : Reachable d) :
    d.vol_phase_1.length = d.vol_phase_2.length ∧
    d.vol_phase_2.length = d.vol_phase_3.length :=
  ⟨(goodData_of_reachable h).1, (goodData_of_reachable h).2.1⟩

theorem C2_phase_lengths_equal_witness :
    ((((Data.new "GTV").add_vol (some (some 1)) (some (some 2)) (some (some 3))).add_vol
        none (some (some 4)) (some (some 5))).clear).vol_phase_1.length =
      ((((Data.new "GTV").add_vol (some (some 1)) (some (some 2)) (some (some 3))).add_vol
        none (some (some 4)) (some (some 5))).clear).vol_phase_2.length ∧
    ((((Data.new "GTV").add_vol (some (some 1)) (some (some 2)) (some (some 3))).add_vol
        none (some (some 4)) (some (some 5))).clear).vol_phase_2.length =
      ((((Data.new "GTV").add_vol (some (some 1)) (some (some 2)) (some (some 3))).add_vol
        none (some (some 4)) (some (some 5))).clear).vol_phase_3.length :=
  C2_phase_lengths_equal _
    (Reachable.clear (Reachable.add_vol _ _ _
      (Reachable.add_vol _ _ _ (Reachable.new "GTV"))))

/-- C3: `add_vol` appends each value to its respective phase sequence when
all three arguments are present non-NaN numbers, and leaves the whole state
unchanged when any argument is missing or NaN. -/
theorem C3_add_vol_gate (d : Data) :
    (∀ a b c : ℚ,
      d.add_vol (some (some a)) (some (some b)) (some (some c)) =
        { d with
          vol_phase_1 := d.vol_phase_1 ++ [some (some a)]
          vol_phase_2 := d.vol_phase_2 ++ [some (some b)]
          vol_phase_3 := d.vol_phase_3 ++ [some (some c)] }) ∧
    (∀ v1 v2 v3 : Option F,
      missingOrNan v1 ∨ missingOrNan v2 ∨ missingOrNan v3 →
        d.add_vol v1 v2 v3 = d) := by
  constructor
  · intro a b c
    simp [Data.add_vol, F.isNan, F.nan]
  · intro v1 v2 v3 h
    rcases h with h | h | h <;> rcases h with h | h <;>
      subst h <;> simp [Data.add_vol, F.isNan, F.nan, missingOrNan]

theorem C3_add_vol_gate_witness :
    (Data.new "R").add_vol (some (some 1)) (some (some 2)) (some (some 3)) =
      ⟨"R", [some (some 1)], [some (some 2)], [some (some 3)]⟩ ∧
    (Data.new "R").add_vol (some (some 1)) (some (some 2)) none = Data.new "R" := by
  constructor
  · have h := (C3_add_vol_gate (Data.new "R")).1 1 2 3
    simpa [Data.new] using h
  · exact (C3_add_vol_gate (Data.new "R")).2 _ _ _ (Or.inr (Or.inr (Or.inl rfl)))

/-- C4: on unequal lengths `avg_std_dev_from_vectors` returns the
length-mismatch error naming both lengths; on equal lengths it always
returns `Ok`. -/
theorem C4_length_mismatch (v1 v2 : List (Option F)) :
    (v1.length ≠ v2.length →
      avg_std_dev_from_vectors v1 v2 =
        Except.error (lengthMismatchMsg v1.length v2.length)) ∧
    (v1.length = v2.length →
      ∃ t, avg_std_dev_from_vectors v1 v2 = Except.ok t) :=
  ⟨avg_std_dev_eq_error v1 v2, fun h => ⟨_, avg_std_dev_eq_ok v1 v2 h⟩⟩

theorem C4_length_mismatch_witness :
    avg_std_dev_from_vectors ([none, none, none] : List (Option F))
        [none, none, none, none] = Except.error (lengthMismatchMsg 3 4) ∧
    ∃ t, avg_std_dev_from_vectors ([some (some 1)] : List (Option F))
        [some (some 2)] = Except.ok t := by
  constructor
  · have h := (C4_length_mismatch ([none, none, none] : List (Option F))
      [none, none, none, none]).1 (by simp)
    simpa using h
  · exact (C4_length_mismatch _ _).2 (by simp)

/-- C1: on equal-length inputs `avg_std_dev_from_vectors` returns `n` equal
to the count of positions where both elements are present and the
difference is not NaN, and `mean` equal to the sum of exactly those
retained differences divided by `n`. -/
theorem C1_mean_and_count (v1 v2 : List (Option F)) (h : v1.length = v2.length) :
    ∃ sd, avg_std_dev_from_vectors v1 v2 =
      Except.ok
        (F.div (some (specDiffs v1 v2).sum) (some ((specDiffs v1 v2).length : ℚ)),
          sd, (specDiffs v1 v2).length) := by
  refine ⟨asdSd v1 v2, ?_⟩
  rw [avg_std_dev_eq_ok v1 v2 h]
  have hr := retainedF_eq_map_specDiffs v1 v2
  simp [asdAvg, asdN, hr, sumF_map_some]

theorem C1_mean_and_count_witness :
    ∃ sd, avg_std_dev_from_vectors
        ([some (some 3), none, some (some 2), some none] : List (Option F))
        ([some (some 1), some (some 1), none, some (some 5)] : List (Option F)) =
      Except.ok
        (F.div (some (specDiffs
            ([some (some 3), none, some (some 2), some none] : List (Option F))
            ([some (some 1), some (some 1), none, some (some 5)] : List (Option F))).sum)
          (some ((specDiffs
            ([some (some 3), none, some (some 2), some none] : List (Option F))
            ([some (some 1), some (some 1), none, some (some 5)] : List (Option F))).length : ℚ)),
          sd,
          (specDiffs
            ([some (some 3), none, some (some 2), some none] : List (Option F))
            ([some (some 1), some (some 1), none, some (some 5)] : List (Option F))).length) :=
  C1_mean_and_count _ _ (by simp)

/-- C6: `avg_vol_phase_start` is the mean of the starting-phase sequence
over all stored entries — its sum divided by the raw stored length —
independently of the Pairwise Differencer's filtering. -/
theorem C6_avg_vol_unfiltered (d : Data)
    (h12 : d.vol_phase_1.length = d.vol_phase_2.length)
    (h23 : d.vol_phase_2.length = d.vol_phase_3.length) :
    (∃ s, d.phase_1_to_2_stat = Except.ok s ∧
      s.avg_vol_phase_start = specAvgVol d.vol_phase_1) ∧
    (∃ s, d.phase_2_to_3_stat = Except.ok s ∧
      s.avg_vol_phase_start = specAvgVol d.vol_phase_2) := by
  constructor
  · exact ⟨_, phase_1_to_2_stat_eq_ok d h12, rfl⟩
  · refine ⟨_, phase_2_to_3_stat_eq_ok d h23, ?_⟩
    simp [specAvgVol, h12]

theorem C6_avg_vol_unfiltered_witness :
    (∃ s, (Data.mk "R" [some (some 4)] [some (some 6)] [some (some 8)]).phase_1_to_2_stat =
        Except.ok s ∧
      s.avg_vol_phase_start =
        specAvgVol (Data.mk "R" [some (some 4)] [some (some 6)] [some (some 8)]).vol_phase_1) ∧
    (∃ s, (Data.mk "R" [some (some 4)] [some (some 6)] [some (some 8)]).phase_2_to_3_stat =
        Except.ok s ∧
      s.avg_vol_phase_start =
        specAvgVol (Data.mk "R" [some (some 4)] [some (some 6)] [some (some 8)]).vol_phase_2) :=
  C6_avg_vol_unfiltered _ (by simp) (by simp)

/-- C9: with zero or one retained pairs there is no error: the function
still returns `Ok`, with a NaN mean when zero pairs remain and a NaN
standard deviation when one pair remains. -/
theorem C9_no_insufficient_data_error (v1 v2 : List (Option F))
    (h : v1.length = v2.length) (hn : asdN v1 v2 ≤ 1) :
    ∃ m sd, avg_std_dev_from_vectors v1 v2 = Except.ok (m, sd, asdN v1 v2) ∧
      (asdN v1 v2 = 0 → m = F.nan) ∧ (asdN v1 v2 = 1 → sd = none) := by
  refine ⟨asdAvg v1 v2, asdSd v1 v2, avg_std_dev_eq_ok v1 v2 h, ?_, ?_⟩
  · intro h0
    have hzero : retainedF v1 v2 = [] := List.length_eq_zero.1 (by simpa [asdN] using h0)
    simp [asdAvg, asdN, hzero, sumF, F.div, F.nan]
  · intro h1
    have hr := retainedF_eq_map_specDiffs v1 v2
    have hlen : (specDiffs v1 v2).length = 1 := by
      have : (retainedF v1 v2).length = 1 := by simpa [asdN] using h1
      simpa [hr] using this
    obtain ⟨q, hq⟩ := List.length_eq_one.1 hlen
    have hone : retainedF v1 v2 = [some q] := by rw [hr, hq]; rfl
    simp [asdSd, asdAvg, asdN, hone, sumF, F.add, F.div, F.sub, F.pow2, F.sqrt]

theorem C9_no_insufficient_data_error_witness :
    (∃ m sd, avg_std_dev_from_vectors
        ([some (some 5), none] : List (Option F))
        ([some (some 3), some (some 1)] : List (Option F)) =
      Except.ok (m, sd, asdN [some (some 5), none] [some (some 3), some (some 1)]) ∧
      (asdN [some (some 5), none] [some (some 3), some (some 1)] = 0 → m = F.nan) ∧
      (asdN [some (some 5), none] [some (some 3), some (some 1)] = 1 → sd = none)) ∧
    asdN [some (some 5), none] [some (some 3), some (some 1)] = 1 := by
  constructor
  · exact C9_no_insufficient_data_error _ _ (by simp)
      (by simp [asdN, retainedF, diffsSome, F.sub, F.isNan])
  · simp [asdN, retainedF, diffsSome, F.sub, F.isNan]

theorem diffsSome_shiftBy (c : ℚ) (v1 v2 : List (Option F)) :
    diffsSome (shiftBy c v1) (shiftBy c v2) = diffsSome v1 v2 := by
  induction v1 generalizing v2 with
  | nil => simp [diffsSome, shiftBy]
  | cons a s ih =>
    cases v2 with
    | nil => simp [diffsSome, shiftBy]
    | cons b t =>
      have ih' := ih t
      simp only [shiftBy, List.map_cons, diffsSome, List.zip_cons_cons,
        List.filterMap_cons] at ih' ⊢
      cases a with
      | none => simpa [shiftBy] using ih'
      | some x =>
        cases b with
        | none => simpa [shiftBy] using ih'
        | some y =>
          cases x with
          | none => simpa [shiftBy, F.add, F.sub] using ih'
          | some q =>
            cases y with
            | none => simpa [shiftBy, F.add, F.sub] using ih'
            | some r =>
              have harith : q + c - (r + c) = q - r := by ring
              simpa [shiftBy, F.add, F.sub, harith] using ih'

theorem avg_std_dev_shiftBy (c : ℚ) (v1 v2 : List (Option F)) :
    avg_std_dev_from_vectors (shiftBy c v1) (shiftBy c v2) =
      avg_std_dev_from_vectors v1 v2 := by
  have h1 : (shiftBy c v1).length = v1.length := by simp [shiftBy]
  have h2 : (shiftBy c v2).length = v2.length := by simp [shiftBy]
  simp only [avg_std_dev_from_vectors, diffsSome_shiftBy c v1 v2, h1, h2]

/-- C8: the standard deviation is invariant under adding the same constant
to every element of both inputs. -/
theorem C8_std_dev_shift_invariant (c : ℚ) (v1 v2 : List (Option F))
    (h : v1.length = v2.length) :
    ∃ m sd n m2,
      avg_std_dev_from_vectors v1 v2 = Except.ok (m, sd, n) ∧
      avg_std_dev_from_vectors (shiftBy c v1) (shiftBy c v2) =
        Except.ok (m2, sd, n) := by
  refine ⟨asdAvg v1 v2, asdSd v1 v2, asdN v1 v2, asdAvg v1 v2,
    avg_std_dev_eq_ok v1 v2 h, ?_⟩
  rw [avg_std_dev_shiftBy c v1 v2, avg_std_dev_eq_ok v1 v2 h]

theorem C8_std_dev_shift_invariant_witness :
    ∃ m sd n m2,
      avg_std_dev_from_vectors
          ([some (some 1), some (some 4)] : List (Option F))
          ([some (some 0), some (some 1)] : List (Option F)) =
        Except.ok (m, sd, n) ∧
      avg_std_dev_from_vectors
          (shiftBy 7 ([some (some 1), some (some 4)] : List (Option F)))
          (shiftBy 7 ([some (some 0), some (some 1)] : List (Option F))) =
        Except.ok (m2, sd, n) :=
  C8_std_dev_shift_invariant 7 _ _ (by simp)

/-- C10: in a `Data` built solely through `new`, `add_vol` and `clear`,
every stored element is a present non-NaN value, and consequently both
phase stats report `n` equal to the number of admitted triples (the stored
length). -/
theorem C10_stored_entries_present (d : Data) (h : Reachable d) :
    (∀ x ∈ d.vol_phase_1, ∃ q : ℚ, x = some (some q)) ∧
    (∀ x ∈ d.vol_phase_2, ∃ q : ℚ, x = some (some q)) ∧
    (∀ x ∈ d.vol_phase_3, ∃ q : ℚ, x = some (some q)) ∧
    (∃ s, d.phase_1_to_2_stat = Except.ok s ∧ s.n = d.vol_phase_1.length) ∧
    (∃ s, d.phase_2_to_3_stat = Except.ok s ∧ s.n = d.vol_phase_1.length) := by
  obtain ⟨h12, h23, e1, e2, e3⟩ := goodData_of_reachable h
  refine ⟨e1, e2, e3, ?_, ?_⟩
  · refine ⟨_, phase_1_to_2_stat_eq_ok d h12, ?_⟩
    have hr := retainedF_eq_map_specDiffs d.vol_phase_1 d.vol_phase_2
    have hl := specDiffs_length_of_all_present d.vol_phase_1 d.vol_phase_2 h12 e1 e2
    simp [asdN, hr, hl]
  · refine ⟨_, phase_2_to_3_stat_eq_ok d h23, ?_⟩
    have hr := retainedF_eq_map_specDiffs d.vol_phase_2 d.vol_phase_3
    have hl := specDiffs_length_of_all_present d.vol_phase_2 d.vol_phase_3 h23 e2 e3
    simp only [asdN, hr, List.length_map, hl]
    omega

theorem C10_stored_entries_present_witness :
    (∀ x ∈ ((Data.new "X").add_vol (some (some 1)) (some (some 2))
        (some (some 3))).vol_phase_1, ∃ q : ℚ, x = some (some q)) ∧
    (∀ x ∈ ((Data.new "X").add_vol (some (some 1)) (some (some 2))
        (some (some 3))).vol_phase_2, ∃ q : ℚ, x = some (some q)) ∧
    (∀ x ∈ ((Data.new "X").add_vol (some (some 1)) (some (some 2))
        (some (some 3))).vol_phase_3, ∃ q : ℚ, x = some (some q)) ∧
    (∃ s, ((Data.new "X").add_vol (some (some 1)) (some (some 2))
        (some (some 3))).phase_1_to_2_stat = Except.ok s ∧
      s.n = ((Data.new "X").add_vol (some (some 1)) (some (some 2))
        (some (some 3))).vol_phase_1.length) ∧
    (∃ s, ((Data.new "X").add_vol (some (some 1)) (some (some 2))
        (some (some 3))).phase_2_to_3_stat = Except.ok s ∧
      s.n = ((Data.new "X").add_vol (some (some 1)) (some (some 2))
        (some (some 3))).vol_phase_1.length) :=
  C10_stored_entries_present _ (Reachable.add_vol _ _ _ (Reachable.new "X"))

/-! ### Error propagation through `dataset_to_stats` -/

/-- The first error (if any) produced by the two stat computations of one
accumulator, in program order. -/
noncomputable def dataError (d : Data) : Option String :=
  match d.phase_1_to_2_stat with
  | Except.error e => some e
  | Except.ok _ =>
    match d.phase_2_to_3_stat with
    | Except.error e => some e
    | Except.ok _ => none

/-- The stats an accumulator contributes when it produces no error. -/
noncomputable def okStats (d : Data) : List Stat :=
  (match d.phase_1_to_2_stat with
   | Except.ok s => [s]
   | Except.error _ => []) ++
  (match d.phase_2_to_3_stat with
   | Except.ok s => [s]
   | Except.error _ => [])

/-- The first error encountered while traversing the dataset in order. -/
noncomputable def firstError : List Data → Option String
  | [] => none
  | d :: rest =>
    match dataError d with
    | some e => some e
    | none => firstError rest

theorem add_data_eq_error (stats : List Stat) (d : Data) (e : String)
    (h : dataError d = some e) : add_data stats d = Except.error e := by
  unfold dataError at h
  unfold add_data
  cases h1 : d.phase_1_to_2_stat with
  | error e1 => simp_all
  | ok s1 =>
    cases h2 : d.phase_2_to_3_stat with
    | error e2 => simp_all
    | ok s2 => simp_all

theorem add_data_eq_ok (stats : List Stat) (d : Data)
    (h : dataError d = none) : add_data stats d = Except.ok (stats ++ okStats d) := by
  unfold dataError at h
  unfold add_data okStats
  cases h1 : d.phase_1_to_2_stat with
  | error e1 => simp_all
  | ok s1 =>
    cases h2 : d.phase_2_to_3_stat with
    | error e2 => simp_all
    | ok s2 => simp_all

theorem datasetLoop_eq_ok (dataset : List Data) :
    ∀ stats, firstError dataset = none →
      datasetLoop stats dataset =
        Except.ok (stats ++ (dataset.map okStats).flatten) := by
  induction dataset with
  | nil => intro stats _; simp [datasetLoop]
  | cons d rest ih =>
    intro stats h
    unfold firstError at h
    cases hd : dataError d with
    | some e => simp [hd] at h
    | none =>
      rw [hd] at h
      rw [datasetLoop, add_data_eq_ok stats d hd]
      show datasetLoop (stats ++ okStats d) rest = _
      rw [ih _ h]
      simp

theorem datasetLoop_eq_error (dataset : List Data) (e : String) :
    ∀ stats, firstError dataset = some e →
      datasetLoop stats dataset = Except.error e := by
  induction dataset with
  | nil => intro stats h; simp [firstError] at h
  | cons d rest ih =>
    intro stats h
    unfold firstError at h
    cases hd : dataError d with
    | some e1 =>
      rw [hd] at h
      cases h
      rw [datasetLoop, add_data_eq_error stats d e hd]
    | none =>
      rw [hd] at h
      rw [datasetLoop, add_data_eq_ok stats d hd]
      exact ih _ h

/-- C7: `dataset_to_stats` either succeeds with (the sorted collection of)
both stats of every accumulator, or fails with the first error encountered,
never with a partial collection. -/
theorem C7_error_propagation (dataset : List Data) :
    (firstError dataset = none →
      dataset_to_stats dataset =
        Except.ok (sortStats (dataset.map okStats).flatten)) ∧
    (∀ e, firstError dataset = some e →
      dataset_to_stats dataset = Except.error e) := by
  constructor
  · intro h
    rw [dataset_to_stats, datasetLoop_eq_ok dataset [] h]
    simp
  · intro e h
    rw [dataset_to_stats, datasetLoop_eq_error dataset e [] h]

theorem C7_error_propagation_witness :
    dataset_to_stats [Data.mk "A" [] [some (some 1)] []] =
      Except.error (lengthMismatchMsg 0 1) := by
  have hl : (Data.mk "A" [] [some (some 1)] []).vol_phase_1.length ≠
      (Data.mk "A" [] [some (some 1)] []).vol_phase_2.length := by simp
  have h1 : (Data.mk "A" [] [some (some 1)] []).phase_1_to_2_stat =
      Except.error (lengthMismatchMsg 0 1) := by
    rw [Data.phase_1_to_2_stat, avg_std_dev_eq_error _ _ hl]
    simp
  have hf : firstError [Data.mk "A" [] [some (some 1)] []] =
      some (lengthMismatchMsg 0 1) := by
    unfold firstError dataError
    rw [h1]
  exact (C7_error_propagation [Data.mk "A" [] [some (some 1)] []]).2 _ hf

/-! ### The six-record sorted output of `dataset_to_stats ∘ records_to_data` -/

theorem add_vol_roi_name (d : Data) (v1 v2 v3 : Option F) :
    (d.add_vol v1 v2 v3).roi_name = d.roi_name := by
  simp only [Data.add_vol]
  split <;> rfl

/-- Invariant of the `records_to_data` fold: all three accumulators are
well-formed and keep their fixed ROI names. -/
def TripleGood (t : Data × Data × Data) : Prop :=
  GoodData t.1 ∧ GoodData t.2.1 ∧ GoodData t.2.2 ∧
  t.1.roi_name = "GTV" ∧ t.2.1.roi_name = "GTV_N" ∧ t.2.2.roi_name = "PTV_DP"

theorem tripleGood_foldl (records : List Record) :
    ∀ acc, TripleGood acc → TripleGood (records.foldl stepRecord acc) := by
  induction records with
  | nil => intro acc h; exact h
  | cons r rest ih =>
    intro acc h
    obtain ⟨g1, g2, g3, n1, n2, n3⟩ := h
    refine ih _ ⟨goodData_add_vol g1 _ _ _, goodData_add_vol g2 _ _ _,
      goodData_add_vol g3 _ _ _, ?_, ?_, ?_⟩ <;>
      simp [stepRecord, add_vol_roi_name, n1, n2, n3]

theorem dataError_of_good (d : Data) (hd : GoodData d) : dataError d = none := by
  unfold dataError
  rw [phase_1_to_2_stat_eq_ok d hd.1, phase_2_to_3_stat_eq_ok d hd.2.1]

theorem insertStat_head (a b : Stat) (t : List Stat) (h : statLE a b = true) :
    insertStat a (b :: t) = a :: b :: t := by
  simp [insertStat, h]

theorem sortStats_of_chain :
    ∀ l : List Stat, List.Chain' (fun a b => statLE a b = true) l → sortStats l = l
  | [], _ => rfl
  | [_], _ => rfl
  | a :: b :: t, h => by
    rcases List.chain'_cons.1 h with ⟨hab, ht⟩
    have hrec := sortStats_of_chain (b :: t) ht
    show insertStat a (sortStats (b :: t)) = a :: b :: t
    rw [hrec, insertStat_head a b t hab]

theorem okStats_eq (d : Data) (s1 s2 : Stat)
    (h1 : d.phase_1_to_2_stat = Except.ok s1)
    (h2 : d.phase_2_to_3_stat = Except.ok s2) : okStats d = [s1, s2] := by
  unfold okStats
  rw [h1, h2]
  rfl

/-- C5: `dataset_to_stats` on the three accumulators of `records_to_data`
returns `Ok` with exactly six stats — GTV 1→2, GTV 2→3, GTV_N 1→2,
GTV_N 2→3, PTV_DP 1→2, PTV_DP 2→3 — sorted strictly ascending by the
identity tuple; equality and ordering of `Stat` depend only on that tuple. -/
theorem C5_six_sorted_records (records : List Record) :
    (∃ s1 s2 s3 s4 s5 s6 : Stat,
      dataset_to_stats (records_to_data records) =
        Except.ok [s1, s2, s3, s4, s5, s6] ∧
      s1.roi_name = "GTV" ∧ s1.phase_start = 1 ∧ s1.phase_end = 2 ∧
      s2.roi_name = "GTV" ∧ s2.phase_start = 2 ∧ s2.phase_end = 3 ∧
      s3.roi_name = "GTV_N" ∧ s3.phase_start = 1 ∧ s3.phase_end = 2 ∧
      s4.roi_name = "GTV_N" ∧ s4.phase_start = 2 ∧ s4.phase_end = 3 ∧
      s5.roi_name = "PTV_DP" ∧ s5.phase_start = 1 ∧ s5.phase_end = 2 ∧
      s6.roi_name = "PTV_DP" ∧ s6.phase_start = 2 ∧ s6.phase_end = 3 ∧
      List.Pairwise (fun a b => statCmp a b = Ordering.lt)
        [s1, s2, s3, s4, s5, s6]) ∧
    (∀ a b : Stat,
      (statBEq a b = true ↔ a.roi_name = b.roi_name ∧
        a.phase_start = b.phase_start ∧ a.phase_end = b.phase_end) ∧
      (∀ a2 b2 : Stat, a.roi_name = a2.roi_name → a.phase_start = a2.phase_start →
        a.phase_end = a2.phase_end → b.roi_name = b2.roi_name →
        b.phase_start = b2.phase_start → b.phase_end = b2.phase_end →
        statCmp a b = statCmp a2 b2)) := by
  constructor
  · have hT := tripleGood_foldl records
      (Data.new "GTV", Data.new "GTV_N", Data.new "PTV_DP")
      ⟨goodData_new _, goodData_new _, goodData_new _, rfl, rfl, rfl⟩
    obtain ⟨hg, hn, hp, e1, e2, e3⟩ := hT
    set acc := records.foldl stepRecord
      (Data.new "GTV", Data.new "GTV_N", Data.new "PTV_DP") with hacc
    have hr2d : records_to_data records = [acc.1, acc.2.1, acc.2.2] := rfl
    have p1 := phase_1_to_2_stat_eq_ok acc.1 hg.1
    have p2 := phase_2_to_3_stat_eq_ok acc.1 hg.2.1
    have p3 := phase_1_to_2_stat_eq_ok acc.2.1 hn.1
    have p4 := phase_2_to_3_stat_eq_ok acc.2.1 hn.2.1
    have p5 := phase_1_to_2_stat_eq_ok acc.2.2 hp.1
    have p6 := phase_2_to_3_stat_eq_ok acc.2.2 hp.2.1
    rw [e1] at p1 p2
    rw [e2] at p3 p4
    rw [e3] at p5 p6
    obtain ⟨a1, b1, c1, d1, p1⟩ : ∃ a b c d, acc.1.phase_1_to_2_stat =
        Except.ok ⟨"GTV", a, 1, 2, b, c, d⟩ := ⟨_, _, _, _, p1⟩
    obtain ⟨a2, b2, c2, d2, p2⟩ : ∃ a b c d, acc.1.phase_2_to_3_stat =
        Except.ok ⟨"GTV", a, 2, 3, b, c, d⟩ := ⟨_, _, _, _, p2⟩
    obtain ⟨a3, b3, c3, d3, p3⟩ : ∃ a b c d, acc.2.1.phase_1_to_2_stat =
        Except.ok ⟨"GTV_N", a, 1, 2, b, c, d⟩ := ⟨_, _, _, _, p3⟩
    obtain ⟨a4, b4, c4, d4, p4⟩ : ∃ a b c d, acc.2.1.phase_2_to_3_stat =
        Except.ok ⟨"GTV_N", a, 2, 3, b, c, d⟩ := ⟨_, _, _, _, p4⟩
    obtain ⟨a5, b5, c5, d5, p5⟩ : ∃ a b c d, acc.2.2.phase_1_to_2_stat =
        Except.ok ⟨"PTV_DP", a, 1, 2, b, c, d⟩ := ⟨_, _, _, _, p5⟩
    obtain ⟨a6, b6, c6, d6, p6⟩ : ∃ a b c d, acc.2.2.phase_2_to_3_stat =
        Except.ok ⟨"PTV_DP", a, 2, 3, b, c, d⟩ := ⟨_, _, _, _, p6⟩
    have ho1 := okStats_eq acc.1 _ _ p1 p2
    have ho2 := okStats_eq acc.2.1 _ _ p3 p4
    have ho3 := okStats_eq acc.2.2 _ _ p5 p6
    have hfe : firstError [acc.1, acc.2.1, acc.2.2] = none := by
      simp [firstError, dataError_of_good _ hg, dataError_of_good _ hn,
        dataError_of_good _ hp]
    have hchain : List.Chain' (fun a b => statLE a b = true)
        [⟨"GTV", a1, 1, 2, b1, c1, d1⟩, ⟨"GTV", a2, 2, 3, b2, c2, d2⟩,
         ⟨"GTV_N", a3, 1, 2, b3, c3, d3⟩, ⟨"GTV_N", a4, 2, 3, b4, c4, d4⟩,
         ⟨"PTV_DP", a5, 1, 2, b5, c5, d5⟩, ⟨"PTV_DP", a6, 2, 3, b6, c6, d6⟩] := by
      refine List.chain'_cons.2 ⟨?_, List.chain'_cons.2 ⟨?_, List.chain'_cons.2 ⟨?_,
        List.chain'_cons.2 ⟨?_, List.chain'_cons.2 ⟨?_, List.chain'_singleton _⟩⟩⟩⟩⟩ <;>
        (simp only [statLE, statCmp]; decide)
    refine ⟨⟨"GTV", a1, 1, 2, b1, c1, d1⟩, ⟨"GTV", a2, 2, 3, b2, c2, d2⟩,
      ⟨"GTV_N", a3, 1, 2, b3, c3, d3⟩, ⟨"GTV_N", a4, 2, 3, b4, c4, d4⟩,
      ⟨"PTV_DP", a5, 1, 2, b5, c5, d5⟩, ⟨"PTV_DP", a6, 2, 3, b6, c6, d6⟩,
      ?_, rfl, rfl, rfl, rfl, rfl, rfl, rfl, rfl, rfl, rfl, rfl, rfl, rfl, rfl,
      rfl, rfl, rfl, rfl, ?_⟩
    · rw [hr2d]
      unfold dataset_to_stats
      rw [datasetLoop_eq_ok _ [] hfe]
      show Except.ok (sortStats ([] ++ ([acc.1, acc.2.1, acc.2.2].map okStats).flatten)) = _
      rw [List.nil_append]
      have hflat : ([acc.1, acc.2.1, acc.2.2].map okStats).flatten =
          [⟨"GTV", a1, 1, 2, b1, c1, d1⟩, ⟨"GTV", a2, 2, 3, b2, c2, d2⟩,
           ⟨"GTV_N", a3, 1, 2, b3, c3, d3⟩, ⟨"GTV_N", a4, 2, 3, b4, c4, d4⟩,
           ⟨"PTV_DP", a5, 1, 2, b5, c5, d5⟩, ⟨"PTV_DP", a6, 2, 3, b6, c6, d6⟩] := by
        simp [ho1, ho2, ho3]
      rw [hflat, sortStats_of_chain _ hchain]
    · refine List.Pairwise.cons ?_ (List.Pairwise.cons ?_ (List.Pairwise.cons ?_
        (List.Pairwise.cons ?_ (List.Pairwise.cons ?_ (List.Pairwise.cons ?_
          List.Pairwise.nil))))) <;>
        (intro b hb; fin_cases hb <;> (simp only [statCmp]; decide))
  · intro a b
    constructor
    · cases a; cases b
      simp [statBEq, Bool.and_eq_true, beq_iff_eq, and_assoc]
    · intro a2 b2 h1 h2 h3 h4 h5 h6
      simp only [statCmp, h1, h2, h3, h4, h5, h6]

theorem C5_six_sorted_records_witness :
    ∃ s1 s2 s3 s4 s5 s6 : Stat,
      dataset_to_stats (records_to_data []) =
        Except.ok [s1, s2, s3, s4, s5, s6] ∧
      s1.roi_name = "GTV" ∧ s1.phase_start = 1 ∧ s1.phase_end = 2 ∧
      s2.roi_name = "GTV" ∧ s2.phase_start = 2 ∧ s2.phase_end = 3 ∧
      s3.roi_name = "GTV_N" ∧ s3.phase_start = 1 ∧ s3.phase_end = 2 ∧
      s4.roi_name = "GTV_N" ∧ s4.phase_start = 2 ∧ s4.phase_end = 3 ∧
      s5.roi_name = "PTV_DP" ∧ s5.phase_start = 1 ∧ s5.phase_end = 2 ∧
      s6.roi_name = "PTV_DP" ∧ s6.phase_start = 2 ∧ s6.phase_end = 3 ∧
      List.Pairwise (fun a b => statCmp a b = Ordering.lt)
        [s1, s2, s3, s4, s5, s6] :=
  (C5_six_sorted_records []).1
